import Mathlib

/-!
Verification of the Repair-Fix-assistant orchestration core.

This file gives a shallow embedding, in Lean 4, of the parts of the
`backend/app` Python package that the specification's testable claims are
about: the conversation context/token budgeter (`app/core/context.py`,
`app/core/tokens.py`), the pipeline step functions
(`app/services/nodes/*.py`), the two routing functions and graph topology
(`app/services/agent.py`), the device-catalog wrapper
(`app/services/ifixit_tools.py`) and the SSE event generator of
`app/main.py` (`stream_agent_response`).

External collaborators (the LLM, the iFixit HTTP API, the web-search
providers, the `tiktoken` tokenizer, the database) enter as explicit
parameters: an oracle function or an `Option`/outcome value standing for
the collaborator's reply, with `none` (or a dedicated constructor) standing
for a failure.  Python code that can raise an exception is embedded as a
function into `Except String`.  Python strings are modelled by `String`,
and the handful of Python string operations the code uses (`lower`,
`strip`, `split`, `in`, `endswith`, `replace`) are re-implemented below on
`List Char` so that every definition evaluates inside the kernel.
-/

namespace RepairFix

/-! ## Python string primitives -/

/-- The whitespace characters of Python's `str.split()` / `str.strip()`. -/
def pyIsSpace (c : Char) : Bool :=
  c == ' ' || c == '\t' || c == '\n' || c == '\r' || c == '\x0b' || c == '\x0c'

/-- Python `str.lower()` (ASCII-relevant part, via `Char.toLower`). -/
def pyLower (s : String) : String :=
  String.mk (s.data.map Char.toLower)

/-- Python `str.strip()`: drop leading and trailing whitespace. -/
def pyStrip (s : String) : String :=
  String.mk (((s.data.dropWhile pyIsSpace).reverse.dropWhile pyIsSpace).reverse)

/-- Helper for `pySplit`: accumulate the current word (reversed) while scanning. -/
def splitWordsAux : List Char → List Char → List String
  | [], cur => if cur = [] then [] else [String.mk cur.reverse]
  | c :: rest, cur =>
    if pyIsSpace c then
      if cur = [] then splitWordsAux rest []
      else String.mk cur.reverse :: splitWordsAux rest []
    else splitWordsAux rest (c :: cur)

/-- Python `str.split()` with no separator: split on runs of whitespace,
no empty words. -/
def pySplit (s : String) : List String :=
  splitWordsAux s.data []

/-- Python `pat in s`: substring containment. -/
def pyContains (s pat : String) : Bool :=
  decide (pat.data <:+: s.data)

/-- Python `s.endswith(suffix)`. -/
def pyEndsWith (s suf : String) : Bool :=
  decide (suf.data <:+ s.data)

/-- Helper for `pyReplace`: replace every occurrence of `pat`; the `Nat`
argument skips the characters consumed by a replaced occurrence. -/
def replaceAllAux (pat repl : List Char) : List Char → Nat → List Char
  | [], _ => []
  | _ :: rest, (k+1) => replaceAllAux pat repl rest k
  | c :: rest, 0 =>
    if pat ≠ [] ∧ pat <+: (c :: rest) then repl ++ replaceAllAux pat repl rest (pat.length - 1)
    else c :: replaceAllAux pat repl rest 0

/-- Python `s.replace(pat, repl)` (all occurrences; callers in this code base
always pass a non-empty `pat`). -/
def pyReplace (s pat repl : String) : String :=
  String.mk (replaceAllAux pat.data repl.data s.data 0)

/-! ## Data model: conversation messages (`{"role": …, "content": …}` dicts) -/

/-- A conversation message, as stored in `messages` lists throughout the code. -/
structure Msg where
  role : String
  content : String
deriving DecidableEq, Repr

/-! ## Token counting (`app/core/tokens.py`) -/

/-- `count_message_tokens` from `app/core/tokens.py`, on its main (`tiktoken`)
path: 4 tokens of per-message formatting overhead, plus the encoded length of
each string value of the message dict (`role` and `content`), plus 2 tokens of
trailing overhead.  The subword tokenizer itself is the external `tiktoken`
library; it enters as the `encode` parameter (`encode s` = number of tokens of
`s`). -/
def count_message_tokens (encode : String → Nat) (messages : List Msg) : Nat :=
  (messages.foldl (fun acc m => acc + 4 + encode m.role + encode m.content) 0) + 2

/-! ## Context budgeter (`app/core/context.py`) -/

/-- `MAX_CONTEXT_TOKENS` from `app/core/context.py`. -/
def MAX_CONTEXT_TOKENS : Nat := 100000

/-- `MAX_MESSAGES_TO_KEEP` from `app/core/context.py`. -/
def MAX_MESSAGES_TO_KEEP : Nat := 50

/-- The `while current_tokens > max_tokens and len(conversation_messages) > 1`
loop of `trim_conversation_history`, written with explicit fuel so that it is
structurally recursive.  Each iteration pops the oldest remaining non-system
message (`conversation_messages.pop(0)`). -/
def trim_loop_fuel (cnt : List Msg → Nat) (sys : List Msg) (maxT : Nat) :
    Nat → List Msg → List Msg
  | 0, conv => sys ++ conv
  | fuel + 1, conv =>
    if cnt (sys ++ conv) > maxT ∧ conv.length > 1 then
      trim_loop_fuel cnt sys maxT fuel conv.tail
    else sys ++ conv

/-- The trimming loop at its natural fuel (`conv.length`), which is enough:
the loop drops one message per iteration and stops once one remains. -/
def trim_loop (cnt : List Msg → Nat) (sys : List Msg) (maxT : Nat)
    (conv : List Msg) : List Msg :=
  trim_loop_fuel cnt sys maxT conv.length conv

/-- `trim_conversation_history(messages, max_tokens, max_messages)` from
`app/core/context.py`: keep all system messages; keep only the most recent
`max_messages` non-system messages; then, while the token estimate still
exceeds `max_tokens` and more than one non-system message remains, drop the
oldest non-system message. -/
def trim_conversation_history (encode : String → Nat) (messages : List Msg)
    (max_tokens max_messages : Nat) : List Msg :=
  if messages = [] then []
  else
    let system_messages := messages.filter (fun m => m.role == "system")
    let conversation_messages := messages.filter (fun m => m.role != "system")
    let conversation_messages :=
      if conversation_messages.length > max_messages then
        -- Python slice `conversation_messages[-max_messages:]`; note that for
        -- `max_messages = 0` this slice is the whole list
        if max_messages = 0 then conversation_messages
        else conversation_messages.drop (conversation_messages.length - max_messages)
      else conversation_messages
    trim_loop (count_message_tokens encode) system_messages max_tokens
      conversation_messages

/-- `should_summarize(messages, threshold_messages)` from `app/core/context.py`
(the source gives `threshold_messages` the default value 30). -/
def should_summarize (messages : List Msg) (threshold_messages : Nat) : Bool :=
  decide ((messages.filter (fun m => m.role != "system")).length > threshold_messages)

/-- The fixed device-keyword list of `create_context_summary`. -/
def common_devices : List String :=
  ["ps5", "playstation", "xbox", "iphone", "macbook", "laptop", "phone"]

/-- `create_context_summary(messages)` from `app/core/context.py`.  The Python
code collects the mentioned device keywords into a `set` and joins them; the
embedding lists them in the fixed order of `common_devices` (Python set
iteration order is not part of the code's contract). -/
def create_context_summary (messages : List Msg) : String :=
  let user_messages := messages.filter (fun m => m.role == "user")
  if user_messages = [] then "No previous conversation context."
  else
    let summary := "Previous conversation summary: User asked " ++
      toString user_messages.length ++ " questions"
    let devices_mentioned := common_devices.filter
      (fun d => user_messages.any (fun m => pyContains (pyLower m.content) d))
    let summary :=
      if devices_mentioned ≠ [] then
        summary ++ " about: " ++ String.intercalate ", " devices_mentioned
      else summary
    summary ++ "."

/-- `prepare_context_for_agent(current_query, conversation_history,
include_summary)` from `app/core/context.py`: trim the history with the module
defaults; if `include_summary` and more than 10 messages were dropped, insert
a `[Context Summary]` system message after the retained system messages; then
append the current query as the latest user message. -/
def prepare_context_for_agent (encode : String → Nat) (current_query : String)
    (conversation_history : List Msg) (include_summary : Bool) : List Msg :=
  let trimmed_history := trim_conversation_history encode conversation_history
    MAX_CONTEXT_TOKENS MAX_MESSAGES_TO_KEEP
  let trimmed_history :=
    if include_summary ∧ conversation_history.length > trimmed_history.length + 10 then
      let trimmed_count := conversation_history.length - trimmed_history.length
      let older_messages := conversation_history.take trimmed_count
      let summary := create_context_summary older_messages
      let system_msgs := trimmed_history.filter (fun m => m.role == "system")
      let other_msgs := trimmed_history.filter (fun m => m.role != "system")
      system_msgs ++ [⟨"system", "[Context Summary] " ++ summary⟩] ++ other_msgs
    else trimmed_history
  trimmed_history ++ [⟨"user", current_query⟩]

/-! ### Lemmas about the budgeter, towards idempotence of the trim -/

/-- Helper: dropping after a tail is dropping one more. -/
theorem drop_tail_comm {α : Type} (l : List α) (k : Nat) :
    l.tail.drop k = l.drop (k + 1) := by
  cases l with
  | nil => simp
  | cons a l => rfl

/-- Helper: the trimming loop keeps the system block intact, drops some
prefix of the non-system block — never emptying a non-empty one — and stops
only under budget or with at most one non-system message left. -/
theorem trim_loop_fuel_spec (cnt : List Msg → Nat) (sys : List Msg) (maxT : Nat) :
    ∀ fuel conv, conv.length ≤ fuel →
      ∃ k, trim_loop_fuel cnt sys maxT fuel conv = sys ++ conv.drop k ∧
        (conv ≠ [] → conv.drop k ≠ []) ∧
        ¬(cnt (sys ++ conv.drop k) > maxT ∧ (conv.drop k).length > 1) := by
  intro fuel
  induction fuel with
  | zero =>
    intro conv hlen
    have hconv : conv = [] := List.eq_nil_of_length_eq_zero (Nat.le_zero.mp hlen)
    subst hconv
    exact ⟨0, rfl, fun h => absurd rfl h, by simp⟩
  | succ fuel ih =>
    intro conv hlen
    by_cases hcond : cnt (sys ++ conv) > maxT ∧ conv.length > 1
    · have hlen' : conv.tail.length ≤ fuel := by
        rw [List.length_tail]
        omega
      obtain ⟨k, heq, hner, hpost⟩ := ih conv.tail hlen'
      refine ⟨k + 1, ?_, ?_, ?_⟩
      · simp only [trim_loop_fuel]
        rw [if_pos hcond, heq, drop_tail_comm]
      · intro _
        rw [← drop_tail_comm]
        refine hner ?_
        intro htail
        have := congrArg List.length htail
        rw [List.length_tail] at this
        simp only [List.length_nil] at this
        omega
      · rw [← drop_tail_comm]
        exact hpost
    · refine ⟨0, ?_, ?_, ?_⟩
      · simp only [trim_loop_fuel]
        rw [if_neg hcond, List.drop_zero]
      · rw [List.drop_zero]
        exact id
      · rw [List.drop_zero]
        exact hcond

/-- Helper: `trim_loop_fuel_spec` at the natural fuel. -/
theorem trim_loop_spec (cnt : List Msg → Nat) (sys : List Msg) (maxT : Nat)
    (conv : List Msg) :
    ∃ k, trim_loop cnt sys maxT conv = sys ++ conv.drop k ∧
      (conv ≠ [] → conv.drop k ≠ []) ∧
      ¬(cnt (sys ++ conv.drop k) > maxT ∧ (conv.drop k).length > 1) :=
  trim_loop_fuel_spec cnt sys maxT conv.length conv (le_refl _)

/-- Helper: a loop already meeting its stopping condition returns at once. -/
theorem trim_loop_of_stop (cnt : List Msg → Nat) (sys : List Msg) (maxT : Nat)
    (conv : List Msg) (h : ¬(cnt (sys ++ conv) > maxT ∧ conv.length > 1)) :
    trim_loop cnt sys maxT conv = sys ++ conv := by
  cases conv with
  | nil => rfl
  | cons a l =>
    simp only [trim_loop, List.length_cons, trim_loop_fuel]
    rw [if_neg (by simpa using h)]

/-- Helper: what one application of the trim produces, for non-empty input:
the system block followed by a block of non-system messages that respects the
message cap (`max_messages = 0` excepted, where the Python slice `[-0:]` is a
no-op) and the stopping condition of the token loop; the result is never
empty. -/
theorem trim_shape (encode : String → Nat) (messages : List Msg)
    (max_tokens max_messages : Nat) (hne : messages ≠ []) :
    ∃ sys conv₂,
      trim_conversation_history encode messages max_tokens max_messages =
        sys ++ conv₂ ∧
      (∀ m ∈ sys, (m.role == "system") = true) ∧
      (∀ m ∈ conv₂, (m.role == "system") = false) ∧
      (max_messages ≠ 0 → conv₂.length ≤ max_messages) ∧
      ¬(count_message_tokens encode (sys ++ conv₂) > max_tokens ∧
        conv₂.length > 1) ∧
      sys ++ conv₂ ≠ [] := by
  have hTrim : trim_conversation_history encode messages max_tokens max_messages =
      trim_loop (count_message_tokens encode)
        (messages.filter (fun m => m.role == "system")) max_tokens
        (if (messages.filter (fun m => m.role != "system")).length > max_messages then
          (if max_messages = 0 then messages.filter (fun m => m.role != "system")
           else (messages.filter (fun m => m.role != "system")).drop
             ((messages.filter (fun m => m.role != "system")).length - max_messages))
         else messages.filter (fun m => m.role != "system")) := by
    simp only [trim_conversation_history, if_neg hne]
  set sys := messages.filter (fun m => m.role == "system") with hsys_def
  set conv₀ := messages.filter (fun m => m.role != "system") with hconv₀_def
  set conv₁ := if conv₀.length > max_messages then
      (if max_messages = 0 then conv₀ else conv₀.drop (conv₀.length - max_messages))
    else conv₀ with hconv₁_def
  have hsub : conv₁ ⊆ conv₀ := by
    rw [hconv₁_def]
    by_cases hgt : conv₀.length > max_messages
    · rw [if_pos hgt]
      by_cases hM0 : max_messages = 0
      · rw [if_pos hM0]
        exact fun m hm => hm
      · rw [if_neg hM0]
        exact List.drop_subset _ _
    · rw [if_neg hgt]
      exact fun m hm => hm
  obtain ⟨k, heq, hner, hpost⟩ :=
    trim_loop_spec (count_message_tokens encode) sys max_tokens conv₁
  refine ⟨sys, conv₁.drop k, hTrim.trans heq, ?_, ?_, ?_, hpost, ?_⟩
  · intro m hm
    exact (List.mem_filter.mp hm).2
  · intro m hm
    have hm₀ : m ∈ conv₀ := hsub (List.drop_subset _ _ hm)
    have := (List.mem_filter.mp hm₀).2
    simp only [bne_iff_ne, ne_eq] at this
    simpa using this
  · intro hM0
    have h1 : conv₁.length ≤ max_messages := by
      rw [hconv₁_def]
      by_cases hgt : conv₀.length > max_messages
      · rw [if_pos hgt, if_neg hM0, List.length_drop]
        omega
      · rw [if_neg hgt]
        omega
    calc (conv₁.drop k).length ≤ conv₁.length := by
          rw [List.length_drop]; omega
      _ ≤ max_messages := h1
  · intro hnil
    rw [List.append_eq_nil] at hnil
    obtain ⟨hsys_nil, hconv₂_nil⟩ := hnil
    have hconv₁_nil : conv₁ = [] := by
      by_contra hc
      exact hner hc hconv₂_nil
    have hconv₀_nil : conv₀ = [] := by
      rw [hconv₁_def] at hconv₁_nil
      by_cases hgt : conv₀.length > max_messages
      · rw [if_pos hgt] at hconv₁_nil
        by_cases hM0 : max_messages = 0
        · rw [if_pos hM0] at hconv₁_nil
          exact hconv₁_nil
        · rw [if_neg hM0] at hconv₁_nil
          have := congrArg List.length hconv₁_nil
          rw [List.length_drop] at this
          simp only [List.length_nil] at this
          omega
      · rw [if_neg hgt] at hconv₁_nil
        exact hconv₁_nil
    obtain ⟨m, hm⟩ := List.exists_mem_of_ne_nil messages hne
    by_cases hrole : (m.role == "system") = true
    · have : m ∈ sys := List.mem_filter.mpr ⟨hm, hrole⟩
      rw [hsys_nil] at this
      cases this
    · have hb : (m.role != "system") = true := by
        simp only [bne_iff_ne, ne_eq]
        simpa using hrole
      have : m ∈ conv₀ := List.mem_filter.mpr ⟨hm, hb⟩
      rw [hconv₀_nil] at this
      cases this

/-- C7: the context budgeter's trim is idempotent: applying
`trim_conversation_history` to its own output, with the same token and
message limits, returns that output unchanged — for every message list,
every token-estimation function, and every pair of limits, including the
case where the token budget cannot be met and a single non-system message
is retained. -/
theorem C7_trim_idempotent (encode : String → Nat) (messages : List Msg)
    (max_tokens max_messages : Nat) :
    trim_conversation_history encode
        (trim_conversation_history encode messages max_tokens max_messages)
        max_tokens max_messages =
      trim_conversation_history encode messages max_tokens max_messages := by
  by_cases hne : messages = []
  · subst hne
    rfl
  · obtain ⟨sys, conv₂, hr, hsys, hconv, hlen, hstop, hrne⟩ :=
      trim_shape encode messages max_tokens max_messages hne
    rw [hr]
    have h1 : (sys ++ conv₂).filter (fun m => m.role == "system") = sys := by
      rw [List.filter_append, List.filter_eq_self.mpr hsys,
        List.filter_eq_nil_iff.mpr (fun m hm => by simp [hconv m hm]), List.append_nil]
    have h2 : (sys ++ conv₂).filter (fun m => m.role != "system") = conv₂ := by
      rw [List.filter_append]
      have hsf : sys.filter (fun m => m.role != "system") = [] :=
        List.filter_eq_nil_iff.mpr (fun m hm => by simp [bne, hsys m hm])
      have hcf : conv₂.filter (fun m => m.role != "system") = conv₂ :=
        List.filter_eq_self.mpr (fun m hm => by simp [bne, hconv m hm])
      rw [hsf, hcf, List.nil_append]
    have hTrim2 : trim_conversation_history encode (sys ++ conv₂) max_tokens
        max_messages =
        trim_loop (count_message_tokens encode) sys max_tokens
          (if conv₂.length > max_messages then
            (if max_messages = 0 then conv₂
             else conv₂.drop (conv₂.length - max_messages))
           else conv₂) := by
      simp only [trim_conversation_history, if_neg hrne, h1, h2]
    rw [hTrim2]
    have hconv₁ : (if conv₂.length > max_messages then
        (if max_messages = 0 then conv₂
         else conv₂.drop (conv₂.length - max_messages))
       else conv₂) = conv₂ := by
      by_cases hM0 : max_messages = 0
      · subst hM0
        by_cases hgt : conv₂.length > 0
        · rw [if_pos hgt, if_pos rfl]
        · rw [if_neg hgt]
      · rw [if_neg (not_lt.mpr (hlen hM0))]
    rw [hconv₁]
    exact trim_loop_of_stop _ _ _ _ hstop

/-- C9 counterexample: the claim says the summary is prepended exactly when
*both* the `should_summarize` size condition (non-system count over the fixed
threshold 30) and significant trimming hold.  With 13 short but token-heavy
messages (a tokenizer estimating 10000 tokens per character), the token loop
drops 12 messages, `prepare_context_for_agent` prepends the summary — yet
`should_summarize` is false, refuting the "only if" direction.  The code
never consults `should_summarize`. -/
theorem C9_prepare_context_counterexample :
    should_summarize (List.replicate 13 (⟨"user", "aaaa"⟩ : Msg)) 30 = false ∧
    prepare_context_for_agent (fun s => s.length * 10000) "q"
        (List.replicate 13 (⟨"user", "aaaa"⟩ : Msg)) true =
      [⟨"system",
        "[Context Summary] Previous conversation summary: User asked 12 questions."⟩,
       ⟨"user", "aaaa"⟩, ⟨"user", "q"⟩] := by
  exact ⟨by decide, by decide⟩

/-- C9 amended: context preparation prepends the synthesized summary as a
synthetic system message (after the retained system messages) exactly when
`include_summary` is set and trimming dropped more than 10 messages; the
`should_summarize` message-count threshold is not consulted.  When the
condition fails, the retained history is returned unchanged apart from the
appended current query. -/
theorem C9_prepare_context_amended (encode : String → Nat) (q : String)
    (h : List Msg) (inc : Bool) :
    (inc = true ∧ h.length >
        (trim_conversation_history encode h MAX_CONTEXT_TOKENS
          MAX_MESSAGES_TO_KEEP).length + 10 →
      prepare_context_for_agent encode q h inc =
        (trim_conversation_history encode h MAX_CONTEXT_TOKENS
            MAX_MESSAGES_TO_KEEP).filter (fun m => m.role == "system") ++
          [⟨"system", "[Context Summary] " ++ create_context_summary
            (h.take (h.length - (trim_conversation_history encode h
              MAX_CONTEXT_TOKENS MAX_MESSAGES_TO_KEEP).length))⟩] ++
          (trim_conversation_history encode h MAX_CONTEXT_TOKENS
            MAX_MESSAGES_TO_KEEP).filter (fun m => m.role != "system") ++
          [⟨"user", q⟩]) ∧
    (¬(inc = true ∧ h.length >
        (trim_conversation_history encode h MAX_CONTEXT_TOKENS
          MAX_MESSAGES_TO_KEEP).length + 10) →
      prepare_context_for_agent encode q h inc =
        trim_conversation_history encode h MAX_CONTEXT_TOKENS
          MAX_MESSAGES_TO_KEEP ++ [⟨"user", q⟩]) := by
  constructor
  · rintro ⟨hinc, hgt⟩
    simp only [prepare_context_for_agent]
    rw [if_pos ⟨by simpa using hinc, hgt⟩]
  · intro hneg
    simp only [prepare_context_for_agent]
    rw [if_neg (by simpa using hneg)]

/-- Witness for the amended C9: with no trimming (empty history) no summary
is added and only the current query is appended. -/
theorem C9_prepare_context_amended_witness :
    prepare_context_for_agent (fun s => s.length) "hello" [] false =
      [⟨"user", "hello"⟩] := by
  have h := (C9_prepare_context_amended (fun s => s.length) "hello" [] false).2
    (by simp)
  rw [h]
  decide

/-! ## Data model: the agent state (`AgentState` in `app/services/agent.py`)

The record dicts the pipeline passes around are modelled by structures whose
fields are the keys the iFixit cleanup functions always populate. -/

/-- A device entry, as produced by `IFixitTools.search_devices` (keys `title`,
`dataType`, `url`). -/
structure Device where
  title : String
  dataType : String
  url : String
deriving DecidableEq, Repr

/-- A guide-list entry, as produced by `IFixitTools.cleanup_guides_list`
(keys `guideid`, `title`, `subject`, `type`, `difficulty`; `guideid` is
`guide.get("guideid")`, so possibly `None`). -/
structure Guide where
  guideid : Option Nat
  title : String
  subject : String
  type : String
  difficulty : String
deriving DecidableEq, Repr

/-- One image reference of a guide step (keys `url`, `thumbnail`). -/
structure StepImage where
  url : String
  thumbnail : String
deriving DecidableEq, Repr

/-- One step of a cleaned repair guide (`IFixitTools.cleanup_repair_guide`). -/
structure GuideStep where
  orderby : Nat
  title : String
  text : String
  images : List StepImage
deriving DecidableEq, Repr

/-- A cleaned repair guide (`IFixitTools.cleanup_repair_guide`'s result dict). -/
structure RepairGuide where
  guideid : Option Nat
  title : String
  subject : String
  introduction : String
  difficulty : String
  time_required : String
  steps : List GuideStep
  tools : List String
  parts : List String
deriving DecidableEq, Repr

/-- One fallback web-search result (keys `title`, `href`, `body`). -/
structure WebResult where
  title : String
  href : String
  body : String
deriving DecidableEq, Repr

/-- The `repair_steps` field: either a cleaned catalog guide (written by
`fetch_guide_node`) or a `{source, results}` dict (written by
`fallback_search_node`). -/
inductive RepairSteps where
  | guide (g : RepairGuide)
  | web (source : String) (results : List WebResult)
deriving DecidableEq, Repr

/-- `dict.get("results", [])` on a `repair_steps` value: the key only exists
on the web shape. -/
def RepairSteps.resultsD : RepairSteps → List WebResult
  | .guide _ => []
  | .web _ rs => rs

/-- `dict.get("title", "Repair Guide")` on a `repair_steps` value: present on
the guide shape, absent (hence the default) on the web shape. -/
def RepairSteps.titleD : RepairSteps → String
  | .guide g => g.title
  | .web _ _ => "Repair Guide"

/-- `dict.get("subject")`-style access coerced by truthiness to `""` when the
key is absent (web shape). -/
def RepairSteps.subjectD : RepairSteps → String
  | .guide g => g.subject
  | .web _ _ => ""

/-- `dict.get("difficulty", "")` on a `repair_steps` value. -/
def RepairSteps.difficultyD : RepairSteps → String
  | .guide g => g.difficulty
  | .web _ _ => ""

/-- `dict.get("introduction")` coerced to `""` when absent. -/
def RepairSteps.introductionD : RepairSteps → String
  | .guide g => g.introduction
  | .web _ _ => ""

/-- `dict.get("time_required")` coerced to `""` when absent. -/
def RepairSteps.time_requiredD : RepairSteps → String
  | .guide g => g.time_required
  | .web _ _ => ""

/-- `dict.get("steps", [])` on a `repair_steps` value. -/
def RepairSteps.stepsD : RepairSteps → List GuideStep
  | .guide g => g.steps
  | .web _ _ => []

/-- `dict.get("tools")` coerced to `[]` when absent. -/
def RepairSteps.toolsD : RepairSteps → List String
  | .guide g => g.tools
  | .web _ _ => []

/-- `dict.get("parts")` coerced to `[]` when absent. -/
def RepairSteps.partsD : RepairSteps → List String
  | .guide g => g.parts
  | .web _ _ => []

/-- `AgentState` from `app/services/agent.py`: the single typed state record
threaded through every node. -/
structure AgentState where
  user_id : String
  session_id : String
  messages : List Msg
  query : String
  normalized_query : Option String
  ifixit_device : Option String
  selected_device : Option Device
  available_guides : Option (List Guide)
  selected_guide : Option Guide
  repair_steps : Option RepairSteps
  fallback_used : Bool
  final_response : Option String
  tool_status : List String
deriving DecidableEq, Repr

/-! ## Device search (`IFixitTools.search_devices` in
`app/services/ifixit_tools.py`)

The HTTP exchange is external; it enters as
`resp : Option (Nat × List Device)`, the status code and the parsed
`results` array (`none` models a raised exception, e.g. a timeout).  Each raw
result is represented by the three fields the code extracts from it. -/

/-- The `skip_words` list of `search_devices`: titles containing any of these
substrings are filtered out as guide/component entries. -/
def skip_words : List String :=
  ["troubleshooting", "replacement", "repair", "disassembly",
   "teardown", "install", "won't", "doesn't", "not working",
   "disk drive", "power supply", "fan", "motherboard", "battery",
   "screen", "lcd", "controller", "charging port", "hdmi",
   "optical drive", "hard drive", "ssd", "cooling", "heatsink"]

/-- The synthetic placeholder device `search_devices` fabricates when the
catalog fails or yields no usable device entry. -/
def synthetic_device (query : String) : Device :=
  { title := query, dataType := "synthetic", url := "" }

/-- The defensive filter of `search_devices`: keep only the top-10 results
whose lowercased title contains no `skip_words` entry. -/
def surviving_candidates (results : List Device) : List Device :=
  (results.take 10).filter
    (fun r => ¬ skip_words.any (fun w => pyContains (pyLower r.title) w))

/-- `IFixitTools.search_devices(query)`: on a 200 response with a non-empty
`results` array, filter out guide/component-like entries and return the top 5
survivors; in every other case (non-200 status, empty results, all results
filtered away, raised exception) return the single synthetic placeholder
device carrying the query text. -/
def search_devices (query : String) (resp : Option (Nat × List Device)) :
    Option (String × List Device) :=
  match resp with
  | some (status, results) =>
    if status = 200 ∧ results ≠ [] then
      let cleaned := surviving_candidates results
      if cleaned ≠ [] then some (query, cleaned.take 5)
      else some (query, [synthetic_device query])
    else some (query, [synthetic_device query])
  | none => some (query, [synthetic_device query])

/-! ## Step functions (`app/services/nodes/*.py`) -/

/-- `normalize_query_node` (`nodes/normalize_query.py`): ask the LLM for the
canonical device name and store its trimmed reply in the immutable
`ifixit_device` field (and the deprecated `normalized_query`).  The LLM is
external: `llm_content` is the reply's `content`; an LLM exception would
propagate out of this node (there is no `try` in the source), which the
callers of this definition model separately. -/
def normalize_query_node (llm_content : String) (s : AgentState) : AgentState :=
  let device_name := pyStrip llm_content
  { s with
    ifixit_device := some device_name,
    normalized_query := some device_name,
    tool_status := s.tool_status ++ ["Normalizing query...", "Device: " ++ device_name] }

/-- `search_device_node` (`nodes/search_device.py`): look the immutable
`ifixit_device` name up through `search` (the `IFixitTools.search_devices`
capability) and store the first returned device, or `null`. -/
def search_device_node (search : String → Option (String × List Device))
    (s : AgentState) : AgentState :=
  let s := { s with tool_status := s.tool_status ++ ["Searching iFixit for device..."] }
  match s.ifixit_device with
  | none => { s with selected_device := none }
  | some device_name =>
    if device_name = "" then { s with selected_device := none }
    else
      match search device_name with
      | some (_, d :: _) =>
        { s with
          selected_device := some d,
          tool_status := s.tool_status ++ ["Found device: " ++ d.title] }
      | some (_, []) =>
        { s with
          selected_device := none,
          tool_status := s.tool_status ++ ["No device found on iFixit"] }
      | none =>
        { s with
          selected_device := none,
          tool_status := s.tool_status ++ ["No device found on iFixit"] }

/-- The `invalid_suffix` list of `list_guides_node`. -/
def invalid_suffixes : List String :=
  [" Troubleshooting", " Repair", " Replacement", " Disassembly",
   " Teardown", " Won't Work", " Not Working", " Doesn't Work"]

/-- The title-cleaning loop of `list_guides_node`: for each invalid suffix in
order, if the current title ends with it, remove it (Python `str.replace`,
i.e. every occurrence). -/
def clean_device_title (device_title : String) : String :=
  invalid_suffixes.foldl
    (fun cleaned suf => if pyEndsWith cleaned suf then pyReplace cleaned suf "" else cleaned)
    device_title

/-- `list_guides_node` (`nodes/list_guides.py`): guard on a selected device
with a non-empty title, defensively re-clean the title, query the catalog's
guide listing (`listGuides`, external) and store the guide list, or `null`
when the device is missing, untitled, or the catalog yields nothing. -/
def list_guides_node (listGuides : String → Option (String × List Guide))
    (s : AgentState) : AgentState :=
  let s := { s with tool_status := s.tool_status ++ ["Fetching available repair guides..."] }
  match s.selected_device with
  | none =>
    { s with
      available_guides := none,
      tool_status := s.tool_status ++ ["No device selected"] }
  | some device =>
    if device.title = "" then
      { s with
        available_guides := none,
        tool_status := s.tool_status ++ ["Device has no title"] }
    else
      let cleaned_title := clean_device_title device.title
      match listGuides cleaned_title with
      | some (_, g :: gs) =>
        { s with
          available_guides := some (g :: gs),
          tool_status := s.tool_status ++
            ["Found " ++ toString (g :: gs).length ++ " repair guides"] }
      | some (_, []) =>
        { s with
          available_guides := none,
          tool_status := s.tool_status ++ ["No repair guides available"] }
      | none =>
        { s with
          available_guides := none,
          tool_status := s.tool_status ++ ["No repair guides available"] }

/-- The per-guide relevance score of `select_guide_node`: over the words of
the lowercased user query, ignoring words of length ≤ 3, award 2 points per
word contained in the lowercased guide title and 1 point per word contained
in the lowercased guide subject. -/
def score_guide (query_words : List String) (g : Guide) : Nat :=
  query_words.foldl
    (fun score word =>
      if word.length > 3 then
        score + (if pyContains (pyLower g.title) word then 2 else 0) +
          (if pyContains (pyLower g.subject) word then 1 else 0)
      else score)
    0

/-- The `for guide in guides` best-score loop of `select_guide_node`: keep the
first guide whose score strictly exceeds the running best (initially 0 with no
guide). -/
def select_loop (score : Guide → Nat) : List Guide → Option Guide × Nat → Option Guide × Nat
  | [], acc => acc
  | g :: gs, (best, bestScore) =>
    let sc := score g
    if sc > bestScore then select_loop score gs (some g, sc)
    else select_loop score gs (best, bestScore)

/-- The guide `select_guide_node` picks from a (non-`None`) candidate list:
the best-score loop's winner, falling back to the first candidate when no
guide scored above 0. -/
def select_best_guide (query : String) (guides : List Guide) : Option Guide :=
  let query_words := pySplit (pyLower query)
  let best := (select_loop (score_guide query_words) guides (none, 0)).1
  match best with
  | some b => some b
  | none => guides.head?

/-- `select_guide_node` (`nodes/select_guide.py`): a logic-only node with no
external call.  The source iterates `for guide in guides` directly over
`state["available_guides"]`; when that field is `None` the iteration raises
`TypeError: 'NoneType' object is not iterable`, which this embedding returns
as `.error` (there is no `try`/`except` in the node). -/
def select_guide_node (s : AgentState) : Except String AgentState :=
  let s := { s with tool_status := s.tool_status ++ ["Selecting most relevant guide..."] }
  match s.available_guides with
  | none => .error "TypeError: NoneType object is not iterable"
  | some guides =>
    let best_guide := select_best_guide s.query guides
    match best_guide with
    | some b =>
      .ok { s with
        selected_guide := some b,
        tool_status := s.tool_status ++ ["Selected: " ++ b.title] }
    | none =>
      .ok { s with
        selected_guide := none,
        tool_status := s.tool_status ++ ["No suitable guide found"] }

/-- `fetch_guide_node` (`nodes/fetch_guide.py`): fetch the selected guide's
details through `fetchGuide` (the `IFixitTools.fetch_repair_guide` capability,
which returns `None` on any failure) and store them, or `null` on failure.
The source subscripts `state["selected_guide"]["guideid"]` without a guard, so
a `None` selected guide raises, returned here as `.error`. -/
def fetch_guide_node (fetchGuide : Option Nat → Option RepairGuide)
    (s : AgentState) : Except String AgentState :=
  let s := { s with tool_status := s.tool_status ++ ["Fetching repair instructions..."] }
  match s.selected_guide with
  | none => .error "TypeError: NoneType object is not subscriptable"
  | some g =>
    match fetchGuide g.guideid with
    | some result =>
      .ok { s with
        repair_steps := some (.guide result),
        tool_status := s.tool_status ++
          ["Retrieved " ++ toString result.steps.length ++ " repair steps"] }
    | none =>
      .ok { s with
        repair_steps := none,
        tool_status := s.tool_status ++ ["Failed to fetch repair guide"] }

/-- The outcome of one optional external search call inside
`fallback_search_node`: the provider is unconfigured, raised, or answered
with a (possibly empty) result list. -/
inductive SearchCall (α : Type) where
  | unconfigured
  | raised
  | ok (results : List α)
deriving DecidableEq, Repr

/-- `fallback_search_node` (`nodes/fallback_search.py`): set `fallback_used`
unconditionally; try Tavily when configured, then DuckDuckGo, each inside its
own `try`/`except`; store the first non-empty result list as
`{source, results}`, else leave `repair_steps` null.  `tavily` carries the
mapped `{title, href, body}` records of `response["results"]`
(`.unconfigured` models a missing API key). -/
def fallback_search_node (tavily : SearchCall WebResult) (ddg : SearchCall WebResult)
    (s : AgentState) : AgentState :=
  let s := { s with
    tool_status := s.tool_status ++ ["Searching community sources as fallback..."],
    fallback_used := true }
  match tavily with
  | .ok (r :: rs) =>
    { s with
      repair_steps := some (.web "tavily" (r :: rs)),
      tool_status := s.tool_status ++
        ["Searching with Tavily AI...",
         "Found " ++ toString (r :: rs).length ++ " results from Tavily"] }
  | t =>
    let s := { s with
      tool_status := s.tool_status ++
        (match t with
         | .unconfigured => ["Tavily not configured, trying DuckDuckGo..."]
         | .raised => ["Searching with Tavily AI...", "Tavily failed, trying DuckDuckGo..."]
         | .ok _ => ["Searching with Tavily AI..."]) }
    match ddg with
    | .ok (r :: rs) =>
      { s with
        repair_steps := some (.web "duckduckgo" (r :: rs)),
        tool_status := s.tool_status ++
          ["Trying DuckDuckGo search...",
           "Found " ++ toString (r :: rs).length ++ " results from DuckDuckGo"] }
    | .raised =>
      { s with
        repair_steps := none,
        tool_status := s.tool_status ++
          ["Trying DuckDuckGo search...", "All fallback searches failed",
           "No community sources found"] }
    | _ =>
      { s with
        repair_steps := none,
        tool_status := s.tool_status ++
          ["Trying DuckDuckGo search...", "No community sources found"] }

/-! ## Response formatting (`nodes/format_response.py`) -/

/-- The follow-up intro phrases of `_get_conversational_intro`. -/
def intros_followup : List String :=
  ["Sure! Let me help you with that.\n\n",
   "Great question! Here's what I found:\n\n",
   "I'm happy to help with that.\n\n",
   "Let me explain this step by step.\n\n"]

/-- The new-request intro phrases of `_get_conversational_intro`. -/
def intros_new : List String :=
  ["I found the perfect repair guide for you!\n\n",
   "Great news! I found an official iFixit guide for your device.\n\n",
   "I've got you covered! Here's the repair information you need:\n\n",
   "Perfect! I found exactly what you're looking for.\n\n"]

/-- `_get_conversational_intro(state)`: a deterministic opener selected by
`len(query) % 4`, from the follow-up list when more than two prior messages
exist. -/
def get_conversational_intro (s : AgentState) : String :=
  let intros := if s.messages.length > 2 then intros_followup else intros_new
  intros.getD (s.query.length % intros.length) ""

/-- The suggestion block `_get_follow_up_suggestions` emits when
`repair_steps` is falsy or the fallback path was used. -/
def fallback_suggestions : String :=
  "\n\n---\n\n💬 **Need more help?**\n\n" ++
  "- Alternative repair methods\n" ++
  "- Required tools or replacement parts\n" ++
  "- Troubleshooting tips\n" ++
  "- Searching for a different device or issue\n"

/-- `_get_follow_up_suggestions(state)`. -/
def get_follow_up_suggestions (s : AgentState) : String :=
  match s.repair_steps with
  | none => fallback_suggestions
  | some guide =>
    if s.fallback_used then fallback_suggestions
    else
      let suggestions := "\n\n---\n\n💬 **What else can I help you with?**\n\n"
      let difficulty := pyLower guide.difficultyD
      let suggestions :=
        if pyContains difficulty "hard" ∨ pyContains difficulty "difficult" then
          suggestions ++ "- Tips to make this repair easier\n"
        else suggestions
      let suggestions :=
        if guide.toolsD ≠ [] then suggestions ++ "- Questions about the required tools\n"
        else suggestions
      let suggestions :=
        if guide.partsD ≠ [] then suggestions ++ "- Where to buy the replacement parts\n"
        else suggestions
      suggestions ++ "- Clarification on any step\n" ++
        "- Alternative or similar repairs\n" ++
        "- Preventive maintenance tips\n"

/-- The closing phrases of `_get_conversational_closing`. -/
def closings : List String :=
  ["\n\n💡 I'm here if you have any questions about these steps!",
   "\n\n🔧 Feel free to ask if you need clarification on any step.",
   "\n\n👍 Let me know if you'd like more details!",
   "\n\n✨ Don't hesitate to ask if something isn't clear."]

/-- `_get_conversational_closing(state)`: deterministic, `len(query) % 4`. -/
def get_conversational_closing (s : AgentState) : String :=
  closings.getD (s.query.length % closings.length) ""

/-- The community-resources section body: one block per fallback result,
numbered from 1. -/
def render_web_results (results : List WebResult) : String :=
  (List.enumFrom 1 results).foldl
    (fun acc ir =>
      acc ++ "### " ++ toString ir.1 ++ ". " ++ ir.2.title ++ "\n\n" ++
        pyStrip ir.2.body ++ "\n\n🔗 [Read more](" ++ ir.2.href ++ ")\n\n")
    ""

/-- The metadata row of the official-guide section. -/
def guide_metadata (guide : RepairSteps) : List String :=
  (if guide.subjectD ≠ "" then ["**Device:** " ++ guide.subjectD] else []) ++
  (if guide.difficultyD ≠ "" then
    [let diff := guide.difficultyD
     let emoji :=
       if pyContains (pyLower diff) "easy" then "🟢"
       else if pyContains (pyLower diff) "moderate" then "🟡"
       else "🔴"
     "**Difficulty:** " ++ emoji ++ " " ++ diff]
   else []) ++
  (if guide.time_requiredD ≠ "" then ["**Time:** ⏱️ " ++ guide.time_requiredD] else [])

/-- The numbered step-by-step section body, each step followed by its inline
images. -/
def render_steps (steps : List GuideStep) : String :=
  steps.foldl
    (fun acc st =>
      acc ++ "### Step " ++ toString st.orderby ++ ": " ++ st.title ++ "\n\n" ++
        pyStrip st.text ++ "\n\n" ++
        st.images.foldl
          (fun a img => a ++ "![Step " ++ toString st.orderby ++ "](" ++ img.url ++ ")\n\n")
          "")
    ""

/-- The apology branch of `format_response_node`, used when `repair_steps` is
null (it replaces the intro entirely). -/
def no_results_response : String :=
  "❌ **I couldn't find a repair guide for this request.**\n\n" ++
  "Please provide:\n\n" ++
  "- The exact device model (e.g., *PlayStation 5 Digital Edition*)\n" ++
  "- The specific issue or part (e.g., *fan replacement*, *HDMI port*)\n\n" ++
  "🔍 I'm ready to help once I have more details!"

/-- `format_response_node` (`nodes/format_response.py`): pure text assembly
with no external call — intro, then the community-resources section (fallback
path), the structured official-guide section (catalog path), or the apology
section (null `repair_steps`, replacing the intro); then the follow-up
suggestions; then, only on the catalog success path, a closing line.  Writes
`final_response`. -/
def format_response_node (s : AgentState) : AgentState :=
  let s := { s with tool_status := s.tool_status ++ ["Formatting response..."] }
  let response := get_conversational_intro s
  let response :=
    match s.repair_steps with
    | some rs =>
      if s.fallback_used then
        response ++ "## ⚠️ Community Resources\n\n" ++
          "I couldn't find an official iFixit guide for **" ++ s.query ++
          "**, but here are some helpful community resources:\n\n" ++
          render_web_results rs.resultsD
      else
        let metadata := guide_metadata rs
        response ++ "# 🔧 " ++ rs.titleD ++ "\n\n" ++
          (if metadata ≠ [] then String.intercalate " | " metadata ++ "\n\n" else "") ++
          (if rs.introductionD ≠ "" then "## 📋 Overview\n\n" ++ rs.introductionD ++ "\n\n"
           else "") ++
          (if rs.toolsD ≠ [] then
            "## 🛠️ Tools You'll Need\n\n" ++
              rs.toolsD.foldl (fun a t => a ++ "- " ++ t ++ "\n") "" ++ "\n"
           else "") ++
          (if rs.partsD ≠ [] then
            "## 📦 Required Parts\n\n" ++
              rs.partsD.foldl (fun a p => a ++ "- " ++ p ++ "\n") "" ++ "\n"
           else "") ++
          "## 📝 Step-by-Step Instructions\n\n" ++ render_steps rs.stepsD
    | none => no_results_response
  let response := response ++ get_follow_up_suggestions s
  let response :=
    if s.repair_steps.isSome ∧ ¬ s.fallback_used then
      response ++ get_conversational_closing s
    else response
  { s with
    final_response := some response,
    tool_status := s.tool_status ++ ["Response ready"] }

/-! ## Entry routing (`_is_followup_question` in
`nodes/conversational_response.py`, `route_initial_query` in
`app/services/agent.py`) -/

/-- The fixed greeting/courtesy/meta phrase list of `_is_followup_question`. -/
def greeting_patterns : List String :=
  ["hi", "hello", "hey", "good morning", "good afternoon", "good evening",
   "greetings", "howdy", "what's up", "whats up", "sup",
   "how are you", "how r u", "how do you do",
   "thanks", "thank you", "appreciate", "great job",
   "bye", "goodbye", "see you", "later",
   "who are you", "what can you do", "what do you do",
   "help me", "can you help", "i need help",
   "what is this", "what's this", "whats this"]

/-- The fixed repair-intent keyword list of `_is_followup_question`. -/
def repair_keywords : List String :=
  ["fix", "repair", "broken", "replace", "screen", "battery"]

/-- The fixed follow-up indicator phrase list of `_is_followup_question`. -/
def followup_indicators : List String :=
  ["what about", "how do i", "can you explain", "why", "when",
   "what is", "what are", "which", "where", "tell me more",
   "clarify", "confused", "don't understand", "what does",
   "in step", "the step", "this step", "that part",
   "alternative", "instead", "easier way", "different",
   "tool", "part", "where to buy", "how much",
   "skip", "necessary", "optional", "important"]

/-- Rule 1 of entry routing: the lowercased, stripped query contains a
greeting/courtesy phrase as a substring. -/
def is_greeting_query (query : String) : Bool :=
  greeting_patterns.any (fun p => pyContains query p)

/-- Rule 2 of entry routing: at most 3 words and no repair-intent keyword as
a substring. -/
def is_short_non_repair (query : String) : Bool :=
  decide ((pySplit query).length ≤ 3) &&
    ¬ repair_keywords.any (fun k => pyContains query k)

/-- Rule 3's context test: some prior assistant turn longer than 200
characters. -/
def has_repair_context (messages : List Msg) : Bool :=
  messages.any (fun m => m.role == "assistant" && decide (m.content.length > 200))

/-- Rule 4's test: the query contains a follow-up indicator phrase. -/
def has_followup_indicator (query : String) : Bool :=
  followup_indicators.any (fun i => pyContains query i)

/-- `_is_followup_question(state)` (`nodes/conversational_response.py`):
greeting check, then short-message check, then the repair-context guard, then
the follow-up indicator check, in that order. -/
def is_followup_question (s : AgentState) : Bool :=
  let query := pyStrip (pyLower s.query)
  if is_greeting_query query then true
  else if is_short_non_repair query then true
  else if ¬ has_repair_context s.messages then false
  else has_followup_indicator query

/-- `route_initial_query(state)` (`app/services/agent.py`): the entry
decision, `"conversational"` or `"normalize"`. -/
def route_initial_query (s : AgentState) : String :=
  if is_followup_question s then "conversational" else "normalize"

/-! ## Mid-chain routing and graph topology (`app/services/agent.py`) -/

/-- `should_use_fallback(state)`: `"fallback"` when the selected device is
null, or the available guides are null or empty, or the selected guide is
null; `"format"` otherwise. -/
def should_use_fallback (s : AgentState) : String :=
  if s.selected_device = none then "fallback"
  else if s.available_guides = none ∨ (s.available_guides.getD []).length = 0 then "fallback"
  else if s.selected_guide = none then "fallback"
  else "format"

/-- The nodes of the compiled graph (`create_agent_graph`). -/
inductive GraphNode where
  | conversational_response
  | normalize_query
  | search_device
  | list_guides
  | select_guide
  | fetch_guide
  | fallback_search
  | format_response
  | END
deriving DecidableEq, Repr

/-- The conditional-edge map `create_agent_graph` registers after
`select_guide`: `{"fallback": "fallback_search", "format": "fetch_guide"}`. -/
def select_guide_edges (label : String) : Option GraphNode :=
  if label = "fallback" then some .fallback_search
  else if label = "format" then some .fetch_guide
  else none

/-- The successor the executor takes after `select_guide`: the conditional-edge
map applied to `should_use_fallback`'s label.  This decision is evaluated
strictly after `select_guide` in the compiled graph. -/
def route_after_select_guide (s : AgentState) : Option GraphNode :=
  select_guide_edges (should_use_fallback s)

/-- The conditional-edge map `create_agent_graph` registers at `__start__`:
`{"conversational": "conversational_response", "normalize": "normalize_query"}`. -/
def start_edges (label : String) : Option GraphNode :=
  if label = "conversational" then some .conversational_response
  else if label = "normalize" then some .normalize_query
  else none

/-- One full run of the repair chain, following the straight edges
`normalize → search_device → list_guides → select_guide` and then the
conditional edge to `fallback_search` or `fetch_guide`, both converging on
`format_response`.  All collaborator replies enter as parameters.  An
uncaught node exception aborts the run as `.error`. -/
def run_repair_chain (llm_content : String)
    (search : String → Option (String × List Device))
    (listGuides : String → Option (String × List Guide))
    (fetchGuide : Option Nat → Option RepairGuide)
    (tavily ddg : SearchCall WebResult) (s0 : AgentState) :
    Except String AgentState := do
  let s1 := normalize_query_node llm_content s0
  let s2 := search_device_node search s1
  let s3 := list_guides_node listGuides s2
  let s4 ← select_guide_node s3
  match route_after_select_guide s4 with
  | some .fallback_search => pure (format_response_node (fallback_search_node tavily ddg s4))
  | some .fetch_guide => do
    let s5 ← fetch_guide_node fetchGuide s4
    pure (format_response_node s5)
  | _ => .error "unreachable edge"

/-! ## The SSE event stream (`stream_agent_response` in `app/main.py`)

The generator's `yield`s are modelled as a list of typed events; the raw SSE
framing (`data: {json}\n\n`) is presentation.  The graph execution is
external here: `emissions` is the list of `tool_status` lists of the node
outputs the `astream` iterator produced, and the outcome is either normal
completion with the final state's `final_response`, or an exception raised
anywhere inside the `try` block (modelled at the run boundary, after the
status events). -/

/-- One typed server-sent event. -/
inductive SSEEvent where
  | status (content : String)
  | response (content : String)
  | error (content : String)
  | done
deriving DecidableEq, Repr

/-- How the run ends: `astream` completed and the final state carried this
`final_response`, or an exception escaped to the generator's `except`. -/
inductive RunOutcome where
  | completed (final_response : Option String)
  | raised (msg : String)
deriving DecidableEq, Repr

/-- The status events: one per node output whose `tool_status` is non-empty,
carrying its last entry. -/
def status_events (emissions : List (List String)) : List SSEEvent :=
  emissions.foldr
    (fun ts acc =>
      match ts.getLast? with
      | some t => .status t :: acc
      | none => acc)
    []

/-- The word-by-word answer events: for words `w₁ … wₙ`, the accumulated
texts `w₁`, `w₁ ++ " " ++ w₂`, …. -/
def accum_events : String → List String → List SSEEvent
  | _, [] => []
  | acc, w :: ws =>
    let acc := if acc = "" then w else acc ++ " " ++ w
    .response acc :: accum_events acc ws

/-- The generic no-response error message of `stream_agent_response`. -/
def no_response_error : String :=
  "Unable to generate a response. Please try rephrasing your question."

/-- `stream_agent_response` (`app/main.py`): the event sequence the generator
yields.  On normal completion with a truthy `final_response`, the status
events, then one `response` event per word (accumulating), then `done`; with
a falsy `final_response`, the status events, one `error`, then `done`.  When
an exception escapes anywhere inside the `try`, the `except` yields a single
`error` event — and nothing after it: the `done` yield sits inside the `try`
block. -/
def stream_agent_response (emissions : List (List String)) (outcome : RunOutcome) :
    List SSEEvent :=
  match outcome with
  | .completed fr =>
    status_events emissions ++
      (match fr with
       | some resp =>
         if resp ≠ "" then accum_events "" (pySplit resp) ++ [.done]
         else [.error no_response_error, .done]
       | none => [.error no_response_error, .done])
  | .raised m => status_events emissions ++ [.error ("An error occurred: " ++ m)]

/-! ## Test fixture -/

/-- The initial state `stream_agent_response` builds for a request (all
optional fields null, `fallback_used = False`, empty status log). -/
def mkState (query : String) (messages : List Msg) : AgentState :=
  { user_id := "u1", session_id := "sess1", messages := messages, query := query,
    normalized_query := none, ifixit_device := none, selected_device := none,
    available_guides := none, selected_guide := none, repair_steps := none,
    fallback_used := false, final_response := none, tool_status := [] }

/-! ## Claims -/

/-- C1: Mid-chain routing, evaluated strictly after select-guide, sends the
run to `fallback_search` if and only if the selected device is null, or the
available guides are null or empty, or the selected guide is null; in every
other state the conditional edge goes to `fetch_guide`.  Quantifying over all
states covers all 8 presence/absence combinations of the three fields. -/
theorem C1_mid_chain_routing (s : AgentState) :
    (route_after_select_guide s = some .fallback_search ↔
      (s.selected_device = none ∨ s.available_guides = none ∨
        s.available_guides = some [] ∨ s.selected_guide = none)) ∧
    (route_after_select_guide s = some .fetch_guide ↔
      ¬ (s.selected_device = none ∨ s.available_guides = none ∨
        s.available_guides = some [] ∨ s.selected_guide = none)) := by
  obtain ⟨uid, sid, msgs, q, nq, ifd, sd, ag, sg, rs, fu, fr, ts⟩ := s
  simp only [route_after_select_guide, select_guide_edges, should_use_fallback]
  rcases sd with _ | d <;> rcases ag with _ | gs <;> rcases sg with _ | g <;>
    first
      | (rcases gs with _ | ⟨g0, gs0⟩ <;> simp)
      | simp

/-- Helper: rule 1 forces the conversational branch. -/
theorem route_conversational_of_greeting (s : AgentState)
    (h : is_greeting_query (pyStrip (pyLower s.query)) = true) :
    route_initial_query s = "conversational" := by
  simp [route_initial_query, is_followup_question, h]

/-- C5: entry routing applies its four rules in order: a greeting/courtesy
match or a short non-repair request routes to conversational (taking
precedence over everything later); otherwise, without a prior assistant turn
longer than the 200-character threshold the repair chain is entered; and with
such context the route is conversational exactly when a follow-up indicator
phrase occurs in the request. -/
theorem C5_entry_routing (s : AgentState) :
    (is_greeting_query (pyStrip (pyLower s.query)) = true ∨
        is_short_non_repair (pyStrip (pyLower s.query)) = true →
      route_initial_query s = "conversational") ∧
    (is_greeting_query (pyStrip (pyLower s.query)) = false →
      is_short_non_repair (pyStrip (pyLower s.query)) = false →
      has_repair_context s.messages = false →
      route_initial_query s = "normalize") ∧
    (is_greeting_query (pyStrip (pyLower s.query)) = false →
      is_short_non_repair (pyStrip (pyLower s.query)) = false →
      has_repair_context s.messages = true →
      (route_initial_query s = "conversational" ↔
        has_followup_indicator (pyStrip (pyLower s.query)) = true)) := by
  refine ⟨fun h => ?_, fun h1 h2 h3 => ?_, fun h1 h2 h3 => ?_⟩
  · rcases h with h | h <;> simp [route_initial_query, is_followup_question, h]
  · simp [route_initial_query, is_followup_question, h1, h2, h3]
  · simp only [route_initial_query, is_followup_question, h1, h2, h3]
    cases hf : has_followup_indicator (pyStrip (pyLower s.query)) <;> simp [hf]

/-- Witness for C5: a long request with repair intent and no prior assistant
context takes the repair chain. -/
theorem C5_entry_routing_witness :
    route_initial_query (mkState "replace cracked front display panel today" []) =
      "normalize" :=
  (C5_entry_routing (mkState "replace cracked front display panel today" [])).2.1
    (by decide) (by decide) (by decide)

/-- C10 (implicit): the greeting check is substring containment on the
lowercased request, so any request whose processed text contains a greeting
phrase anywhere — also inside another word — is routed to conversational,
whatever its repair intent, word count or history. -/
theorem C10_greeting_substring_routes_conversational (s : AgentState) (p : String)
    (hp : p ∈ greeting_patterns)
    (hc : pyContains (pyStrip (pyLower s.query)) p = true) :
    route_initial_query s = "conversational" := by
  have hg : is_greeting_query (pyStrip (pyLower s.query)) = true := by
    simp only [is_greeting_query, List.any_eq_true]
    exact ⟨p, hp, hc⟩
  simp [route_initial_query, is_followup_question, hg]

/-- Witness for C10: "hi" occurs inside "machine", so a clear repair request
about a washing machine is diverted to the conversational branch. -/
theorem C10_greeting_substring_witness :
    route_initial_query
        (mkState "My washing machine is leaking water and needs repair" []) =
      "conversational" :=
  C10_greeting_substring_routes_conversational
    (mkState "My washing machine is leaking water and needs repair" []) "hi"
    (by decide) (by decide)

/-- C3 is a code bug: the spec requires every step to catch its own failures
so that every run reaches a terminal step, and in particular that select-guide
completes with a null `chosenGuide` when `guideCandidates` is null.  The
source's `select_guide_node` iterates `for guide in guides` directly over
`state["available_guides"]` with no `try`, so on the reachable null value it
raises `TypeError` and the whole run aborts.  This theorem exhibits a complete
concrete run: the catalog search yields a 404 so a synthetic device is used,
the guide listing fails (`none`), `list_guides_node` writes a null
`available_guides`, and the chain then dies inside select-guide instead of
reaching `format_response`. -/
theorem C3_select_guide_raises_on_null_guides :
    (list_guides_node (fun _ => none)
        (search_device_node (fun q => search_devices q (some (404, [])))
          (normalize_query_node "PlayStation 5"
            (mkState "my ps5 fan is loud" [])))).available_guides = none ∧
    run_repair_chain "PlayStation 5" (fun q => search_devices q (some (404, [])))
        (fun _ => none) (fun _ => none) .unconfigured .raised
        (mkState "my ps5 fan is loud" []) =
      .error "TypeError: NoneType object is not iterable" := by
  exact ⟨rfl, rfl⟩

/-- C4 is a code bug: the generator's `except` branch yields a single error
event and returns — the terminal `done` yield sits inside the `try` block, so
a run that raises delivers no `done` and the claimed shape
`status*, (answer | error), done` fails.  (Independently, a normal completion
streams one accumulating `response` event per word rather than exactly one
answer event.)  Evaluated here at a run that raised after one status
emission, and at a normal completion with a two-word answer. -/
theorem C4_stream_missing_done_on_exception :
    stream_agent_response [["Normalizing query..."]] (.raised "boom") =
      [.status "Normalizing query...", .error "An error occurred: boom"] ∧
    SSEEvent.done ∉ stream_agent_response [["Normalizing query..."]] (.raised "boom") ∧
    (stream_agent_response [] (.completed (some "two words"))).countP
        (fun e => match e with | .response _ => true | _ => false) = 2 ∧
    stream_agent_response [] (.completed (some "two words")) =
      [.response "two", .response "two words", .done] := by
  refine ⟨rfl, by decide, rfl, rfl⟩

/-- The highest score any candidate reaches (0 for the empty list). -/
def max_score (score : Guide → Nat) (guides : List Guide) : Nat :=
  (guides.map score).foldl max 0

/-- The selection rule as §4.6 of the spec words it, for comparison with the
source's loop: the first candidate whose score equals the highest score
("ties keep the first encountered"; when every candidate scores 0 the highest
score is 0 and this is the first candidate; for an empty list there is
none). -/
def spec_first_highest_scoring (q : String) (guides : List Guide) : Option Guide :=
  guides.find? (fun g =>
    score_guide (pySplit (pyLower q)) g =
      max_score (score_guide (pySplit (pyLower q))) guides)

/-- Helper: the fold's initial value bounds the fold. -/
theorem le_foldl_max (l : List Nat) (b : Nat) : b ≤ l.foldl max b := by
  induction l generalizing b with
  | nil => exact le_refl b
  | cons x l ih => exact le_trans (Nat.le_max_left b x) (ih (max b x))

/-- Helper: every member bounds below the max fold. -/
theorem mem_le_foldl_max (l : List Nat) (b x : Nat) (hx : x ∈ l) :
    x ≤ l.foldl max b := by
  induction l generalizing b with
  | nil => cases hx
  | cons y l ih =>
    rcases List.mem_cons.mp hx with rfl | hx'
    · exact le_trans (Nat.le_max_right b x) (le_foldl_max l (max b x))
    · exact ih (max b y) hx'

/-- Helper: when nothing in the list exceeds the initial value, the fold is
the initial value. -/
theorem foldl_max_of_le (l : List Nat) (b : Nat) (h : ∀ x ∈ l, x ≤ b) :
    l.foldl max b = b := by
  induction l with
  | nil => rfl
  | cons x l ih =>
    have hx : max b x = b := Nat.max_eq_left (h x (List.mem_cons_self x l))
    simp only [List.foldl_cons, hx]
    exact ih (fun y hy => h y (List.mem_cons_of_mem x hy))

/-- Helper: the max fold is its initial value or is attained by a member. -/
theorem foldl_max_attained (l : List Nat) (b : Nat) :
    l.foldl max b = b ∨ ∃ x ∈ l, l.foldl max b = x := by
  induction l generalizing b with
  | nil => exact Or.inl rfl
  | cons y l ih =>
    rcases ih (max b y) with h | ⟨x, hx, hfx⟩
    · by_cases hy : y ≤ b
      · exact Or.inl (by simpa [Nat.max_eq_left hy] using h)
      · refine Or.inr ⟨y, List.mem_cons_self y l, ?_⟩
        simpa [Nat.max_eq_right (le_of_not_le hy)] using h
    · exact Or.inr ⟨x, List.mem_cons_of_mem y hx, hfx⟩

/-- Helper: the running best score of the selection loop is the max fold of
the candidate scores over the incoming best score. -/
theorem select_loop_snd (score : Guide → Nat) (gs : List Guide)
    (best : Option Guide) (bs : Nat) :
    (select_loop score gs (best, bs)).2 = (gs.map score).foldl max bs := by
  induction gs generalizing best bs with
  | nil => rfl
  | cons g gs ih =>
    simp only [select_loop, List.map_cons, List.foldl_cons]
    by_cases hsc : score g > bs
    · rw [if_pos hsc, ih, Nat.max_eq_right (le_of_lt hsc)]
    · rw [if_neg hsc, ih, Nat.max_eq_left (le_of_not_lt hsc)]

/-- Helper: when no candidate beats the running best, the loop returns its
accumulator unchanged. -/
theorem select_loop_of_le (score : Guide → Nat) (gs : List Guide)
    (best : Option Guide) (bs : Nat) (h : ∀ g ∈ gs, score g ≤ bs) :
    select_loop score gs (best, bs) = (best, bs) := by
  induction gs generalizing best bs with
  | nil => rfl
  | cons g gs ih =>
    simp only [select_loop]
    rw [if_neg (not_lt.mpr (h g (List.mem_cons_self g gs)))]
    exact ih best bs (fun g' hg' => h g' (List.mem_cons_of_mem g hg'))

/-- Helper: when some candidate beats the running best, the loop's winner is
the first candidate attaining the maximal score. -/
theorem select_loop_fst_find (score : Guide → Nat) (gs : List Guide)
    (best : Option Guide) (bs : Nat) (h : ∃ g ∈ gs, bs < score g) :
    (select_loop score gs (best, bs)).1 =
      gs.find? (fun g => score g = (gs.map score).foldl max bs) := by
  induction gs generalizing best bs with
  | nil => obtain ⟨g, hg, _⟩ := h; cases hg
  | cons g gs ih =>
    simp only [select_loop, List.map_cons, List.foldl_cons]
    by_cases hsc : bs < score g
    · rw [if_pos hsc]
      simp only [Nat.max_eq_right (le_of_lt hsc)]
      by_cases hall : ∀ g' ∈ gs, score g' ≤ score g
      · rw [select_loop_of_le score gs (some g) (score g) hall]
        rw [foldl_max_of_le _ _ (by simpa using hall)]
        rw [List.find?_cons_of_pos _ (by simp)]
      · push_neg at hall
        obtain ⟨g', hg', hgt⟩ := hall
        rw [ih (some g) (score g) ⟨g', hg', hgt⟩]
        have hM : score g < (gs.map score).foldl max (score g) :=
          lt_of_lt_of_le hgt
            (mem_le_foldl_max _ _ _ (List.mem_map_of_mem score hg'))
        rw [List.find?_cons_of_neg _ (by simp [Nat.ne_of_lt hM])]
    · rw [if_neg hsc]
      simp only [Nat.max_eq_left (le_of_not_lt hsc)]
      have hsc' : score g ≤ bs := le_of_not_lt hsc
      obtain ⟨g'', hg'', hgt''⟩ := h
      have hg''gs : g'' ∈ gs := by
        rcases List.mem_cons.mp hg'' with rfl | hmem
        · exact absurd hgt'' hsc
        · exact hmem
      rw [ih best bs ⟨g'', hg''gs, hgt''⟩]
      have hM : score g < (gs.map score).foldl max bs :=
        lt_of_le_of_lt hsc'
          (lt_of_lt_of_le hgt''
            (mem_le_foldl_max _ _ _ (List.mem_map_of_mem score hg''gs)))
      rw [List.find?_cons_of_neg _ (by simp [Nat.ne_of_lt hM])]

/-- Helper: the source's selection function equals the spec's "first candidate
with the highest score" rule, on every candidate list. -/
theorem select_best_guide_eq_spec (q : String) (guides : List Guide) :
    select_best_guide q guides = spec_first_highest_scoring q guides := by
  simp only [select_best_guide, spec_first_highest_scoring, max_score]
  set score := score_guide (pySplit (pyLower q)) with hscore
  by_cases hpos : ∃ g ∈ guides, 0 < score g
  · rw [select_loop_fst_find score guides none 0 hpos]
    have hsome : ∃ g, guides.find?
        (fun g => score g = (guides.map score).foldl max 0) = some g := by
      obtain ⟨g0, hg0, hg0pos⟩ := hpos
      rcases foldl_max_attained (guides.map score) 0 with hz | ⟨x, hx, hfx⟩
      · exact absurd hz (Nat.ne_of_gt
          (lt_of_lt_of_le hg0pos (mem_le_foldl_max _ _ _ (List.mem_map_of_mem score hg0))))
      · obtain ⟨g1, hg1, rfl⟩ := List.mem_map.mp hx
        rcases hfind : guides.find?
            (fun g => score g = (guides.map score).foldl max 0) with _ | g2
        · rw [List.find?_eq_none] at hfind
          exact absurd (by simp [hfx]) (hfind g1 hg1)
        · exact ⟨g2, rfl⟩
    obtain ⟨g, hg⟩ := hsome
    rw [hg]
  · push_neg at hpos
    have hzero : ∀ g ∈ guides, score g = 0 := fun g hg => Nat.le_zero.mp (hpos g hg)
    rw [select_loop_of_le score guides none 0 (fun g hg => le_of_eq (hzero g hg))]
    have hM : (guides.map score).foldl max 0 = 0 :=
      foldl_max_of_le _ _ (by simpa using fun g hg => le_of_eq (hzero g hg))
    cases guides with
    | nil => rfl
    | cons g gs =>
      simp only [hM]
      rw [List.find?_cons_of_pos _ (by simp [hzero g (List.mem_cons_self g gs)])]
      rfl

/-- Helper: when every candidate scores 0 the spec rule picks the first
candidate (or none for the empty list). -/
theorem spec_first_highest_scoring_all_zero (q : String) (guides : List Guide)
    (hzero : ∀ g ∈ guides, score_guide (pySplit (pyLower q)) g = 0) :
    spec_first_highest_scoring q guides = guides.head? := by
  cases guides with
  | nil => rfl
  | cons g gs =>
    unfold spec_first_highest_scoring max_score
    have hM : (((g :: gs).map (score_guide (pySplit (pyLower q)))).foldl max 0) = 0 := by
      refine foldl_max_of_le _ _ ?_
      intro x hx
      obtain ⟨g', hg', rfl⟩ := List.mem_map.mp hx
      exact le_of_eq (hzero g' hg')
    simp only [hM]
    rw [List.find?_cons_of_pos _ (by simp [hzero g (List.mem_cons_self g gs)])]
    rfl

/-- Helper: for a non-empty candidate list the spec rule returns a member
whose score no candidate exceeds. -/
theorem spec_first_highest_scoring_max (q : String) (guides : List Guide)
    (hne : guides ≠ []) :
    ∃ g, spec_first_highest_scoring q guides = some g ∧ g ∈ guides ∧
      ∀ g' ∈ guides, score_guide (pySplit (pyLower q)) g' ≤
        score_guide (pySplit (pyLower q)) g := by
  rcases hfind : spec_first_highest_scoring q guides with _ | g
  · exfalso
    unfold spec_first_highest_scoring at hfind
    rw [List.find?_eq_none] at hfind
    rcases guides with _ | ⟨g0, gs0⟩
    · exact hne rfl
    · rcases foldl_max_attained
          ((g0 :: gs0).map (score_guide (pySplit (pyLower q)))) 0 with hz | ⟨x, hx, hfx⟩
      · have h1 : score_guide (pySplit (pyLower q)) g0 ≤ 0 := by
          have := mem_le_foldl_max
            ((g0 :: gs0).map (score_guide (pySplit (pyLower q)))) 0
            (score_guide (pySplit (pyLower q)) g0)
            (List.mem_map_of_mem _ (List.mem_cons_self g0 gs0))
          omega
        refine hfind g0 (List.mem_cons_self g0 gs0) ?_
        simp only [max_score, decide_eq_true_eq]
        rw [hz]
        exact Nat.le_zero.mp h1
      · obtain ⟨g1, hg1, hfx'⟩ := List.mem_map.mp hx
        refine hfind g1 hg1 ?_
        simp only [max_score, decide_eq_true_eq]
        rw [hfx, hfx']
  · have hg : g ∈ guides :=
      List.mem_of_find?_eq_some (by simpa [spec_first_highest_scoring] using hfind)
    have hp : score_guide (pySplit (pyLower q)) g =
        max_score (score_guide (pySplit (pyLower q))) guides := by
      have := List.find?_some (p := fun g =>
        decide (score_guide (pySplit (pyLower q)) g =
          max_score (score_guide (pySplit (pyLower q))) guides))
        (by simpa [spec_first_highest_scoring] using hfind)
      simpa using this
    refine ⟨g, rfl, hg, ?_⟩
    intro g' hg'
    rw [hp]
    simp only [max_score]
    exact mem_le_foldl_max _ _ _ (List.mem_map_of_mem _ hg')

/-- Helper: evaluating `select_guide_node` on a state whose `available_guides`
is a concrete (non-null) list. -/
theorem select_guide_node_eval (uid sid : String) (msgs : List Msg)
    (q : String) (nq ifd : Option String) (sd : Option Device)
    (sg : Option Guide) (rs : Option RepairSteps) (fu : Bool)
    (fr : Option String) (ts : List String) (guides : List Guide) :
    ∃ out, select_guide_node
        ⟨uid, sid, msgs, q, nq, ifd, sd, some guides, sg, rs, fu, fr, ts⟩ =
          .ok out ∧
      out.selected_guide = select_best_guide q guides := by
  rcases hb : select_best_guide q guides with _ | b
  · refine ⟨⟨uid, sid, msgs, q, nq, ifd, sd, some guides, none, rs, fu, fr,
      ts ++ ["Selecting most relevant guide..."] ++ ["No suitable guide found"]⟩,
      ?_, by simp [hb]⟩
    simp [select_guide_node, hb]
  · refine ⟨⟨uid, sid, msgs, q, nq, ifd, sd, some guides, some b, rs, fu, fr,
      ts ++ ["Selecting most relevant guide..."] ++ ["Selected: " ++ b.title]⟩,
      ?_, by simp [hb]⟩
    simp [select_guide_node, hb]

/-- C6: on every non-null candidate list, select-guide completes and writes
to `selected_guide` exactly the spec's selection: the first candidate whose
score (2 per query token of length > 3 contained in the title, 1 per such
token contained in the subject) is the highest; the first candidate when all
scores are 0; `null` for the empty list.  The written guide is a candidate of
maximal score.  `select_guide_node` takes no collaborator argument: it makes
no external call. -/
theorem C6_select_guide_scoring (s : AgentState) (guides : List Guide)
    (h : s.available_guides = some guides) :
    ∃ out, select_guide_node s = .ok out ∧
      out.selected_guide = spec_first_highest_scoring s.query guides ∧
      (guides = [] → out.selected_guide = none) ∧
      ((∀ g ∈ guides, score_guide (pySplit (pyLower s.query)) g = 0) →
        out.selected_guide = guides.head?) ∧
      (guides ≠ [] → ∃ g, out.selected_guide = some g ∧ g ∈ guides ∧
        ∀ g' ∈ guides, score_guide (pySplit (pyLower s.query)) g' ≤
          score_guide (pySplit (pyLower s.query)) g) := by
  obtain ⟨uid, sid, msgs, q, nq, ifd, sd, ag, sg, rs, fu, fr, ts⟩ := s
  have h' : ag = some guides := h
  subst h'
  obtain ⟨out, hout, hsel⟩ :=
    select_guide_node_eval uid sid msgs q nq ifd sd sg rs fu fr ts guides
  refine ⟨out, hout, ?_, ?_, ?_, ?_⟩
  · rw [hsel, select_best_guide_eq_spec]
  · intro hnil
    subst hnil
    rw [hsel]
    rfl
  · intro hzero
    rw [hsel, select_best_guide_eq_spec]
    exact spec_first_highest_scoring_all_zero q guides hzero
  · intro hne
    rw [hsel, select_best_guide_eq_spec]
    exact spec_first_highest_scoring_max q guides hne

/-- Witness for C6: the spec's own scenario — candidates "Battery
Replacement" and "Screen Replacement", query "battery is dead" — selects the
battery guide (its title contains the length-4+ token "battery"). -/
theorem C6_select_guide_scoring_witness :
    ∃ out, select_guide_node
        { mkState "battery is dead" [] with
          available_guides := some
            [{ guideid := some 10, title := "Battery Replacement", subject := "",
               type := "replacement", difficulty := "" },
             { guideid := some 11, title := "Screen Replacement", subject := "",
               type := "replacement", difficulty := "" }] } = .ok out ∧
      out.selected_guide = some
        { guideid := some 10, title := "Battery Replacement", subject := "",
          type := "replacement", difficulty := "" } := by
  obtain ⟨out, hout, hspec, _, _, _⟩ := C6_select_guide_scoring
    { mkState "battery is dead" [] with
      available_guides := some
        [{ guideid := some 10, title := "Battery Replacement", subject := "",
           type := "replacement", difficulty := "" },
         { guideid := some 11, title := "Screen Replacement", subject := "",
           type := "replacement", difficulty := "" }] }
    [{ guideid := some 10, title := "Battery Replacement", subject := "",
       type := "replacement", difficulty := "" },
     { guideid := some 11, title := "Screen Replacement", subject := "",
       type := "replacement", difficulty := "" }] rfl
  refine ⟨out, hout, ?_⟩
  rw [hspec]
  decide

/-- The condition under which `search_devices` falls back to the synthetic
device: exception, non-200 status, empty results, or all results removed by
the defensive filter. -/
def catalog_failed (resp : Option (Nat × List Device)) : Prop :=
  match resp with
  | none => True
  | some (status, results) =>
    status ≠ 200 ∨ results = [] ∨ surviving_candidates results = []

instance (resp : Option (Nat × List Device)) : Decidable (catalog_failed resp) := by
  unfold catalog_failed
  match resp with
  | none => exact inferInstanceAs (Decidable True)
  | some (status, results) => exact inferInstanceAs (Decidable (_ ∨ _ ∨ _))

/-- C8: whenever the device search fails — exception, non-success status,
empty results, or every candidate removed by the defensive filter — the
search yields exactly one synthesized placeholder device whose title is the
original query text and whose `dataType` is the sentinel `"synthetic"`, and
locate-device selects it (so it never dead-ends); otherwise locate-device
selects the first surviving candidate in catalog order. -/
theorem C8_locate_device_synthesis (q : String) (resp : Option (Nat × List Device))
    (s : AgentState) (hq : s.ifixit_device = some q) (hne : q ≠ "") :
    (catalog_failed resp →
      search_devices q resp = some (q, [synthetic_device q]) ∧
      (search_device_node (fun query => search_devices query resp) s).selected_device =
        some (synthetic_device q)) ∧
    (∀ status results, resp = some (status, results) → ¬ catalog_failed resp →
      (search_device_node (fun query => search_devices query resp) s).selected_device =
        (surviving_candidates results).head?) := by
  constructor
  · intro hfail
    have hsd : search_devices q resp = some (q, [synthetic_device q]) := by
      rcases resp with _ | ⟨status, results⟩
      · rfl
      · simp only [catalog_failed] at hfail
        simp only [search_devices]
        by_cases h200 : status = 200 ∧ results ≠ []
        · have hsurv : surviving_candidates results = [] := by
            rcases hfail with h | h | h
            · exact absurd h200.1 h
            · exact absurd h h200.2
            · exact h
          rw [if_pos h200]
          simp [hsurv]
        · rw [if_neg h200]
    refine ⟨hsd, ?_⟩
    obtain ⟨uid, sid, msgs, qq, nq, ifd, sd, ag, sg, rs, fu, fr, ts⟩ := s
    have hq' : ifd = some q := hq
    subst hq'
    simp only [search_device_node]
    rw [if_neg hne, hsd]
  · intro status results hresp hok
    rw [hresp] at hok
    simp only [catalog_failed] at hok
    push_neg at hok
    obtain ⟨h200, hres, hsurv⟩ := hok
    have hsd : search_devices q resp =
        some (q, (surviving_candidates results).take 5) := by
      rw [hresp]
      simp only [search_devices]
      rw [if_pos ⟨h200, hres⟩]
      simp [hsurv]
    obtain ⟨uid, sid, msgs, qq, nq, ifd, sd, ag, sg, rs, fu, fr, ts⟩ := s
    have hq' : ifd = some q := hq
    subst hq'
    simp only [search_device_node]
    rw [if_neg hne, hsd]
    rcases hs : surviving_candidates results with _ | ⟨d, ds⟩
    · exact absurd hs hsurv
    · simp [hs]

/-- Witness for C8: on a raised catalog call the node stores the synthetic
placeholder titled with the query. -/
theorem C8_locate_device_synthesis_witness :
    (search_device_node (fun query => search_devices query none)
        { mkState "my ps5 fan is loud" [] with
          ifixit_device := some "PlayStation 5" }).selected_device =
      some { title := "PlayStation 5", dataType := "synthetic", url := "" } :=
  ((C8_locate_device_synthesis "PlayStation 5" none
      { mkState "my ps5 fan is loud" [] with ifixit_device := some "PlayStation 5" }
      rfl (by decide)).1 (by decide)).2

/-- Helper: `search_device_node` never writes `ifixit_device`. -/
theorem search_device_node_preserves_device (f : String → Option (String × List Device))
    (s : AgentState) : (search_device_node f s).ifixit_device = s.ifixit_device := by
  obtain ⟨uid, sid, msgs, q, nq, ifd, sd, ag, sg, rs, fu, fr, ts⟩ := s
  rcases ifd with _ | dn
  · rfl
  · rcases hf : f dn with _ | ⟨q', _ | ⟨d, ds⟩⟩ <;>
      by_cases h : dn = "" <;> simp [search_device_node, h, hf]

/-- Helper: `list_guides_node` never writes `ifixit_device`. -/
theorem list_guides_node_preserves_device (f : String → Option (String × List Guide))
    (s : AgentState) : (list_guides_node f s).ifixit_device = s.ifixit_device := by
  obtain ⟨uid, sid, msgs, q, nq, ifd, sd, ag, sg, rs, fu, fr, ts⟩ := s
  rcases sd with _ | d
  · rfl
  · rcases hf : f (clean_device_title d.title) with _ | ⟨dt, _ | ⟨g, gs⟩⟩ <;>
      by_cases h : d.title = "" <;> simp [list_guides_node, h, hf]

/-- Helper: a successful `select_guide_node` never writes `ifixit_device`. -/
theorem select_guide_node_preserves_device (s : AgentState) (out : AgentState)
    (h : select_guide_node s = .ok out) : out.ifixit_device = s.ifixit_device := by
  simp only [select_guide_node] at h
  split at h
  · exact absurd h (by simp)
  · split at h <;> (have h' := Except.ok.inj h; subst h'; rfl)

/-- Helper: a successful `fetch_guide_node` never writes `ifixit_device`. -/
theorem fetch_guide_node_preserves_device (f : Option Nat → Option RepairGuide)
    (s : AgentState) (out : AgentState)
    (h : fetch_guide_node f s = .ok out) : out.ifixit_device = s.ifixit_device := by
  simp only [fetch_guide_node] at h
  split at h
  · exact absurd h (by simp)
  · split at h <;> (have h' := Except.ok.inj h; subst h'; rfl)

/-- Helper: `fallback_search_node` never writes `ifixit_device`. -/
theorem fallback_search_node_preserves_device (t d : SearchCall WebResult)
    (s : AgentState) : (fallback_search_node t d s).ifixit_device = s.ifixit_device := by
  obtain ⟨uid, sid, msgs, q, nq, ifd, sd, ag, sg, rs, fu, fr, ts⟩ := s
  simp only [fallback_search_node]
  rcases t with _ | _ | ⟨_ | ⟨r, rss⟩⟩ <;>
    rcases d with _ | _ | ⟨_ | ⟨r', rs'⟩⟩ <;> rfl

/-- Helper: `format_response_node` never writes `ifixit_device`. -/
theorem format_response_node_preserves_device (s : AgentState) :
    (format_response_node s).ifixit_device = s.ifixit_device := rfl

/-- C2: the canonical device name is write-once.  `normalize_query_node`
writes the trimmed LLM reply to `ifixit_device`; every subsequent repair-chain
step — locate-device, list-guides, select-guide, fetch-guide, fallback-search,
format-answer — leaves the field exactly as it found it; the device search
depends on the state only through `ifixit_device` (two search collaborators
agreeing on that one query produce identical node results); and across any
complete successful run of the chain the final state still carries the value
interpret-request wrote. -/
theorem C2_device_name_write_once :
    (∀ llm s, (normalize_query_node llm s).ifixit_device = some (pyStrip llm)) ∧
    (∀ f s, (search_device_node f s).ifixit_device = s.ifixit_device) ∧
    (∀ f s, (list_guides_node f s).ifixit_device = s.ifixit_device) ∧
    (∀ s out, select_guide_node s = .ok out → out.ifixit_device = s.ifixit_device) ∧
    (∀ f s out, fetch_guide_node f s = .ok out → out.ifixit_device = s.ifixit_device) ∧
    (∀ t d s, (fallback_search_node t d s).ifixit_device = s.ifixit_device) ∧
    (∀ s, (format_response_node s).ifixit_device = s.ifixit_device) ∧
    (∀ s dn f₁ f₂, s.ifixit_device = some dn → f₁ dn = f₂ dn →
      search_device_node f₁ s = search_device_node f₂ s) ∧
    (∀ llm search listGuides fetchGuide tavily ddg s0 sf,
      run_repair_chain llm search listGuides fetchGuide tavily ddg s0 = .ok sf →
      sf.ifixit_device = some (pyStrip llm)) := by
  refine ⟨fun llm s => rfl, search_device_node_preserves_device,
    list_guides_node_preserves_device, select_guide_node_preserves_device,
    fetch_guide_node_preserves_device, fallback_search_node_preserves_device,
    format_response_node_preserves_device, ?_, ?_⟩
  · intro s dn f₁ f₂ hdn hagree
    unfold search_device_node
    rw [hdn]
    by_cases h : dn = ""
    · simp [h]
    · simp [h, hagree]
  · intro llm search listGuides fetchGuide tavily ddg s0 sf hrun
    unfold run_repair_chain at hrun
    simp only [bind, Except.bind, pure, Except.pure] at hrun
    split at hrun
    · exact absurd hrun (by simp)
    · rename_i s4 hsel
      have h4 : s4.ifixit_device = some (pyStrip llm) := by
        rw [select_guide_node_preserves_device _ _ hsel,
          list_guides_node_preserves_device, search_device_node_preserves_device]
        rfl
      split at hrun
      · have h' := Except.ok.inj hrun
        subst h'
        rw [format_response_node_preserves_device,
          fallback_search_node_preserves_device, h4]
      · split at hrun
        · exact absurd hrun (by simp)
        · rename_i s5 hfetch
          have h' := Except.ok.inj hrun
          subst h'
          rw [format_response_node_preserves_device,
            fetch_guide_node_preserves_device _ _ _ hfetch, h4]
      · exact absurd hrun (by simp)

/-- Witness for C2: a complete successful run (synthetic device, one listed
guide, failing guide fetch) ends with `ifixit_device` still equal to the value
interpret-request wrote. -/
theorem C2_device_name_write_once_witness :
    ∃ sf, run_repair_chain "PlayStation 5" (fun q => search_devices q none)
        (fun _ => some ("PlayStation 5",
          [{ guideid := some 1, title := "PlayStation 5 Fan Replacement",
             subject := "Fan", type := "replacement", difficulty := "Moderate" }]))
        (fun _ => none) .unconfigured .raised
        (mkState "my ps5 fan is loud" []) = .ok sf ∧
      sf.ifixit_device = some "PlayStation 5" := by
  obtain ⟨sf, hsf⟩ : ∃ sf, run_repair_chain "PlayStation 5"
      (fun q => search_devices q none)
      (fun _ => some ("PlayStation 5",
        [{ guideid := some 1, title := "PlayStation 5 Fan Replacement",
           subject := "Fan", type := "replacement", difficulty := "Moderate" }]))
      (fun _ => none) .unconfigured .raised
      (mkState "my ps5 fan is loud" []) = .ok sf := ⟨_, rfl⟩
  refine ⟨sf, hsf, ?_⟩
  have h := C2_device_name_write_once.2.2.2.2.2.2.2.2 "PlayStation 5"
    (fun q => search_devices q none)
    (fun _ => some ("PlayStation 5",
      [{ guideid := some 1, title := "PlayStation 5 Fan Replacement",
         subject := "Fan", type := "replacement", difficulty := "Moderate" }]))
    (fun _ => none) .unconfigured .raised
    (mkState "my ps5 fan is loud" []) sf hsf
  rw [h]
  decide

end RepairFix
